import Mathlib

/-!
Verification development for the product-testing app
(`src/components/ProductTesting.tsx` plus the report-builder contract).

The definitions below are a shallow embedding of the TypeScript source:
record types mirror the store entities, the event handlers become pure
functions on explicit state (React state updates and store mutations are
modelled as state transformation), and the export handlers are modelled
as the trace of external effects they perform.
-/

namespace ProductTesting

/-! ## Data model (store entities, from the queries/mutations in the source) -/

/-- A `Product` record: store id, human inventory id, name, description, price.
Price is carried opaquely as an integer number of cents stand-in; no claim
computes with it. -/
structure Product where
  id : String
  inventoryId : String
  name : String
  description : String
  price : Int
  deriving Repr, DecidableEq

/-- A `ComponentTest` record: store id, owning product reference, name,
status string (`"working"` / `"not-working"` / `"untested"`), notes, and an
optional last-tested timestamp. -/
structure ComponentTest where
  id : String
  productId : String
  name : String
  status : String
  notes : String
  testedAt : Option Nat
  deriving Repr, DecidableEq

/-- A `ProductPhoto` record: store id, owning product reference, image url
(data-URI or remote URL). -/
structure ProductPhoto where
  id : String
  productId : String
  url : String
  deriving Repr, DecidableEq

/-! ## Filename derivation

`handleDownloadWordReport` (line 216) sets
`a.download = `${selectedProduct.name.replace(/\s+/g, '_')}_test_report_${Date.now()}.docx``
and `handleEmailReport` (line 241) sets
`a.download = `${selectedProduct.name.replace(/\s+/g, '_')}_test_report.docx``.

`String.replace(/\s+/g, '_')` replaces every maximal run of JavaScript
whitespace by a single underscore; we embed that regex semantics as a
left-to-right scan carrying an in-a-whitespace-run flag. -/

/-- Character class of the JavaScript regex `\\s`: space, tab, LF, CR, VT, FF,
NBSP, Ogham space mark, the U+2000 to U+200A spaces, line and paragraph
separators, narrow NBSP, medium mathematical space, ideographic space, BOM. -/
def isJsWs (c : Char) : Bool :=
  c.toNat == 0x20 || c.toNat == 0x09 || c.toNat == 0x0A || c.toNat == 0x0D
    || c.toNat == 0x0B || c.toNat == 0x0C
    || c.toNat == 0xA0 || c.toNat == 0x1680
    || (0x2000 ≤ c.toNat && c.toNat ≤ 0x200A)
    || c.toNat == 0x2028 || c.toNat == 0x2029 || c.toNat == 0x202F
    || c.toNat == 0x205F || c.toNat == 0x3000 || c.toNat == 0xFEFF

/-- Left-to-right scan implementing `replace(/\s+/g, '_')`: the flag records
whether we are inside a whitespace run whose underscore was already emitted. -/
def collapseWsAux : Bool → List Char → List Char
  | _, [] => []
  | inRun, c :: rest =>
    if isJsWs c then
      if inRun then collapseWsAux true rest
      else '_' :: collapseWsAux true rest
    else
      c :: collapseWsAux false rest

/-- `name.replace(/\s+/g, '_')` as used by both export handlers. -/
def jsCollapseWs (s : String) : String :=
  String.mk (collapseWsAux false s.data)

/-- The two export delivery paths. -/
inductive ExportPurpose where
  | download
  | email
  deriving Repr, DecidableEq

/-- Suggested filename, exactly as the two handlers compute it: the download
path appends a `Date.now()` timestamp token, the email path does not. -/
def reportFilename : ExportPurpose → String → Nat → String
  | .download, name, now => jsCollapseWs name ++ "_test_report_" ++ toString now ++ ".docx"
  | .email, name, _ => jsCollapseWs name ++ "_test_report.docx"

/-! Declarative characterisation of whitespace collapsing, written from the
spec's words: the output is the input with every maximal run of whitespace
replaced by a single underscore. -/

/-- `WsCollapsed s t`: `t` is `s` with every maximal whitespace run replaced
by one `'_'`. The `run` rule consumes a nonempty all-whitespace block that is
maximal (the remainder does not start with whitespace). -/
inductive WsCollapsed : List Char → List Char → Prop where
  | nil : WsCollapsed [] []
  | run (r rest t : List Char) (hne : r ≠ [])
      (hws : ∀ c ∈ r, isJsWs c = true)
      (hmax : ∀ c, rest.head? = some c → isJsWs c = false)
      (h : WsCollapsed rest t) :
      WsCollapsed (r ++ rest) ('_' :: t)
  | keep (c : Char) (rest t : List Char) (hc : isJsWs c = false)
      (h : WsCollapsed rest t) :
      WsCollapsed (c :: rest) (c :: t)

lemma collapseWsAux_true_eq (l : List Char) :
    collapseWsAux true l = collapseWsAux false (l.dropWhile isJsWs) := by
  induction l with
  | nil => rfl
  | cons c rest ih =>
    by_cases h : isJsWs c
    · simp [collapseWsAux, h, List.dropWhile_cons, ih]
    · simp [collapseWsAux, h, List.dropWhile_cons]

lemma head_dropWhile_not_isJsWs :
    ∀ (l : List Char) (a : Char), (l.dropWhile isJsWs).head? = some a → isJsWs a = false := by
  intro l
  induction l with
  | nil => intro a h; simp [List.dropWhile] at h
  | cons c rest ih =>
    intro a h
    by_cases hc : isJsWs c
    · rw [List.dropWhile_cons_of_pos hc] at h
      exact ih a h
    · rw [List.dropWhile_cons_of_neg hc] at h
      simp at h
      simpa [← h] using hc

lemma wsCollapsed_collapseWsAux_bounded :
    ∀ (n : Nat) (l : List Char), l.length ≤ n → WsCollapsed l (collapseWsAux false l) := by
  intro n
  induction n with
  | zero =>
    intro l hl
    have : l = [] := List.eq_nil_of_length_eq_zero (Nat.le_zero.mp hl)
    subst this
    exact WsCollapsed.nil
  | succ n ih =>
    intro l hl
    match l with
    | [] => exact WsCollapsed.nil
    | c :: rest =>
      have hrest : rest.length ≤ n := Nat.le_of_succ_le_succ hl
      by_cases hc : isJsWs c
      · have hsplit : c :: rest
            = (c :: rest.takeWhile isJsWs) ++ rest.dropWhile isJsWs := by
          simp [List.takeWhile_append_dropWhile]
        have hcollapse : collapseWsAux false (c :: rest)
            = '_' :: collapseWsAux false (rest.dropWhile isJsWs) := by
          simp [collapseWsAux, hc, collapseWsAux_true_eq]
        rw [hcollapse, hsplit]
        refine WsCollapsed.run _ _ _ (by simp) ?_ ?_ ?_
        · intro a ha
          rcases List.mem_cons.mp ha with h | h
          · simpa [h] using hc
          · exact List.mem_takeWhile_imp h
        · exact fun a ha => head_dropWhile_not_isJsWs rest a ha
        · exact ih _ (Nat.le_trans (List.dropWhile_suffix isJsWs).length_le hrest)
      · have hcollapse : collapseWsAux false (c :: rest)
            = c :: collapseWsAux false rest := by
          simp [collapseWsAux, hc]
        rw [hcollapse]
        exact WsCollapsed.keep c rest _ (by simpa using hc) (ih rest hrest)

/-- The scan implementing `replace(/\s+/g, '_')` satisfies the declarative
"maximal whitespace runs become single underscores" specification. -/
lemma wsCollapsed_jsCollapseWs (s : String) :
    WsCollapsed s.data (jsCollapseWs s).data :=
  wsCollapsed_collapseWsAux_bounded s.data.length s.data (Nat.le_refl _)

/-! ## Status rendering (`getStatusIcon`, lines 261–270) -/

/-- The three icons the switch can render: green check circle, red X circle,
gray plain circle. -/
inductive StatusIcon where
  | checkCircleGreen
  | xCircleRed
  | circleGray
  deriving Repr, DecidableEq

/-- `getStatusIcon`: `switch` on the status string; `working` and
`not-working` have cases, everything else falls to the `default` branch. -/
def getStatusIcon (status : String) : StatusIcon :=
  if status = "working" then .checkCircleGreen
  else if status = "not-working" then .xCircleRed
  else .circleGray

/-! ## Screenshot capture (`captureScreenshot`, lines 189–202) -/

/-- Opaque handle for the DOM node `testPanelRef.current` points at. -/
structure Panel where
  handle : String
  deriving Repr, DecidableEq

/-- Result of a successful `html2canvas` render. -/
structure Canvas where
  pngBase64 : String
  deriving Repr, DecidableEq

/-- `canvas.toDataURL('image/png')`. -/
def Canvas.toDataURL (c : Canvas) : String :=
  "data:image/png;base64," ++ c.pngBase64

/-- Environment of `captureScreenshot`: the ref may be null, and the
`html2canvas` call may reject (modelled as `Except`). -/
structure CaptureEnv where
  testPanel : Option Panel
  html2canvas : Panel → Except String Canvas

/-- `captureScreenshot`: returns `undefined` when the ref is null, catches a
failing `html2canvas` and returns `undefined`, otherwise returns the PNG
data-URI. Total: it never propagates an error to the caller. -/
def captureScreenshot (env : CaptureEnv) : Option String :=
  match env.testPanel with
  | none => none
  | some panel =>
    match env.html2canvas panel with
    | .ok canvas => some canvas.toDataURL
    | .error _ => none

/-! ## Report builder (`generateWordDocument` from `src/lib/wordExport`) -/

/-- One component entry in the document: name, status marker, notes,
last-tested stamp when present. -/
structure ComponentEntry where
  name : String
  marker : StatusIcon
  notes : String
  testedAt : Option Nat
  deriving Repr, DecidableEq

/-- Title block of the document: name, inventory id, description, price. -/
structure TitleBlock where
  name : String
  inventoryId : String
  description : String
  price : Int
  deriving Repr, DecidableEq

/-- The structured report document the builder assembles. -/
structure ReportDocument where
  title : TitleBlock
  componentEntries : List ComponentEntry
  photoEntries : List String
  screenshotSection : Option String
  generatedAt : Nat
  deriving Repr, DecidableEq

/-- The document entry derived from one `ComponentTest`: its name, the status
marker (unrecognized statuses degrade to the untested rendering), notes and
last-tested time. -/
def mkComponentEntry (c : ComponentTest) : ComponentEntry :=
  { name := c.name
    marker := getStatusIcon c.status
    notes := c.notes
    testedAt := c.testedAt }

/-- Modelled from the spec: `generateWordDocument` is imported from
`src/lib/wordExport`, a file that is not part of the available sources; only
its call sites are. Per the spec it builds a title block from the product
fields, one component entry per component in input order, one photo entry per
photo in input order, an optional screenshot section (omitted when absent),
and a time-dependent generated-at stamp. -/
def generateWordDocument (p : Product) (components : List ComponentTest)
    (photos : List ProductPhoto) (screenshot : Option String) (now : Nat) :
    ReportDocument :=
  { title := { name := p.name, inventoryId := p.inventoryId
               description := p.description, price := p.price }
    componentEntries := components.map mkComponentEntry
    photoEntries := photos.map ProductPhoto.url
    screenshotSection := screenshot
    generatedAt := now }

/-! ## Export handlers (`handleDownloadWordReport` lines 204–227,
`handleEmailReport` lines 229–259), modelled as the trace of external
effects each invocation performs. The `mailto:` subject/body templating is
pure string interpolation of product fields and the current date; no claim
refers to it, so the event records only the recipient. -/

/-- Externally visible effects of an export handler invocation. -/
inductive ExportEvent where
  | capture (result : Option String)
  | build (doc : ReportDocument)
  | packAndDownload (filename : String)
  | openMailto (recipient : String)
  deriving Repr, DecidableEq

/-- Environment an export handler reads: the current query results, the
capture environment, the email form field, and the clock. -/
structure ExportEnv where
  selectedProduct : Option Product
  components : List ComponentTest
  photos : List ProductPhoto
  capture : CaptureEnv
  emailAddress : String
  now : Nat

/-- `handleDownloadWordReport`: early return without a selected product;
otherwise capture once, build once from the current data, pack and trigger
the download under the timestamped filename. -/
def handleDownloadWordReport (env : ExportEnv) : List ExportEvent :=
  match env.selectedProduct with
  | none => []
  | some p =>
    let screenshot := captureScreenshot env.capture
    [ .capture screenshot
    , .build (generateWordDocument p env.components env.photos screenshot env.now)
    , .packAndDownload (reportFilename .download p.name env.now) ]

/-- `handleEmailReport`: early return without a selected product or an empty
email address; otherwise capture once, build once from the current data, pack
and download under the untimestamped filename, then open the mail composer. -/
def handleEmailReport (env : ExportEnv) : List ExportEvent :=
  match env.selectedProduct with
  | none => []
  | some p =>
    if env.emailAddress = "" then []
    else
      let screenshot := captureScreenshot env.capture
      [ .capture screenshot
      , .build (generateWordDocument p env.components env.photos screenshot env.now)
      , .packAndDownload (reportFilename .email p.name env.now)
      , .openMailto env.emailAddress ]

/-- Number of screenshot-capture invocations in a trace. -/
def countCaptureEvents (trace : List ExportEvent) : Nat :=
  trace.countP fun e => match e with | .capture _ => true | _ => false

/-- Number of builder invocations in a trace. -/
def countBuildEvents (trace : List ExportEvent) : Nat :=
  trace.countP fun e => match e with | .build _ => true | _ => false

/-! ## Product deletion (`handleDeleteProduct`, lines 147–170) -/

/-- Application state the delete handler touches: the three record
collections and the current selection. -/
structure AppState where
  products : List Product
  componentTests : List ComponentTest
  productPhotos : List ProductPhoto
  selectedProductId : Option String
  deriving Repr, DecidableEq

/-- `handleDeleteProduct id`: every component whose `productId` equals `id`
is soft-deleted by clearing its `productId` to `""` (the record stays);
every photo whose `productId` equals `id` is removed from the store; the
product record is removed; the selection is cleared when it was the deleted
product. The store's update/remove-by-id over the query results is rendered
pointwise, ids being store-assigned and unique. -/
def handleDeleteProduct (st : AppState) (id : String) : AppState :=
  { products := st.products.filter fun p => p.id ≠ id
    componentTests := st.componentTests.map fun c =>
      if c.productId = id then { c with productId := "" } else c
    productPhotos := st.productPhotos.filter fun ph => ph.productId ≠ id
    selectedProductId :=
      if st.selectedProductId = some id then none else st.selectedProductId }

/-! ## Per-product statistics (`getStatusStats`, lines 272–278) over the
`components` query result (lines 37–39), which is filtered by the selected
product id (`selectedProductId || ''`). -/

/-- The `ComponentTest` query backing the `components` variable:
`where: { productId: selectedProductId || '' }`. -/
def componentsQuery (store : List ComponentTest) (selectedProductId : Option String) :
    List ComponentTest :=
  store.filter fun c => c.productId = selectedProductId.getD ""

/-- The counters `getStatusStats` returns. -/
structure StatusStats where
  working : Nat
  notWorking : Nat
  untested : Nat
  total : Nat
  deriving Repr, DecidableEq

/-- `getStatusStats productId`: filter the fetched `components` by
`productId`, then count each status and the total. -/
def getStatusStats (components : List ComponentTest) (productId : String) :
    StatusStats :=
  let productComponents := components.filter fun c => c.productId = productId
  { working := (productComponents.filter fun c => c.status = "working").length
    notWorking := (productComponents.filter fun c => c.status = "not-working").length
    untested := (productComponents.filter fun c => c.status = "untested").length
    total := productComponents.length }

/-! ## Inventory-id search (`handleSearchByInventoryId`, lines 172–187) -/

/-- The UI state the search handler reads and writes, plus the alerts it
raises. -/
structure SearchState where
  selectedProductId : Option String
  showInventorySearch : Bool
  inventorySearchId : String
  alerts : List String
  deriving Repr, DecidableEq

/-- The lazy `Product` query `where: { inventoryId: … }`. -/
def queryByInventoryId (store : List Product) (invId : String) : List Product :=
  store.filter fun p => p.inventoryId = invId

/-- `handleSearchByInventoryId`: empty search string returns immediately;
a nonempty result selects the first record, closes the modal and clears the
field; an empty result only raises an alert. -/
def handleSearchByInventoryId (store : List Product) (st : SearchState) :
    SearchState :=
  if st.inventorySearchId = "" then st
  else
    match queryByInventoryId store st.inventorySearchId with
    | r :: _ =>
      { st with selectedProductId := some r.id
                showInventorySearch := false
                inventorySearchId := "" }
    | [] =>
      { st with alerts := st.alerts ++ ["Product not found with this Inventory ID"] }

/-! ## Concrete records used by witnesses -/

/-- A concrete product record. -/
def productDemo : Product :=
  { id := "p1", inventoryId := "INV-1", name := "Widget"
    description := "demo", price := 10 }

/-- A concrete component-test record owned by `productDemo`. -/
def componentDemo : ComponentTest :=
  { id := "c1", productId := "p1", name := "Battery"
    status := "working", notes := "ok", testedAt := some 7 }

/-- A concrete photo record owned by `productDemo`. -/
def photoDemo : ProductPhoto :=
  { id := "ph1", productId := "p1", url := "data:image/png;base64,AAA" }

/-! ## Claim theorems -/

/-- C1: for every valid input triple, the document `generateWordDocument`
produces contains exactly `len(components)` component entries and exactly
`len(photos)` photo entries; each section is the pointwise image of its
input sequence in input order, so no entry is silently dropped. -/
theorem generateWordDocument_preserves_entries (p : Product)
    (components : List ComponentTest) (photos : List ProductPhoto)
    (screenshot : Option String) (now : Nat) :
    (generateWordDocument p components photos screenshot now).componentEntries.length
        = components.length
    ∧ (generateWordDocument p components photos screenshot now).photoEntries.length
        = photos.length
    ∧ (generateWordDocument p components photos screenshot now).componentEntries
        = components.map mkComponentEntry
    ∧ (generateWordDocument p components photos screenshot now).photoEntries
        = photos.map ProductPhoto.url := by
  refine ⟨?_, ?_, rfl, rfl⟩ <;> simp [generateWordDocument]

/-- C2: the download path's suggested filename is the product name with every
maximal whitespace run collapsed to a single underscore (the `WsCollapsed`
relation), followed by `_test_report_`, the numeric `Date.now()` token and
`.docx`; in particular `"Widget  Pro"` yields
`Widget_Pro_test_report_<timestamp>.docx`. -/
theorem downloadFilename_collapses_whitespace (name : String) (now : Nat) :
    reportFilename .download name now
      = jsCollapseWs name ++ "_test_report_" ++ toString now ++ ".docx"
    ∧ WsCollapsed name.data (jsCollapseWs name).data
    ∧ reportFilename .download "Widget  Pro" now
      = "Widget_Pro_test_report_" ++ toString now ++ ".docx" := by
  refine ⟨rfl, wsCollapsed_jsCollapseWs name, ?_⟩
  have h : jsCollapseWs "Widget  Pro" ++ "_test_report_" = "Widget_Pro_test_report_" := by
    decide
  show jsCollapseWs "Widget  Pro" ++ "_test_report_" ++ toString now ++ ".docx" = _
  rw [h]

/-- C3: the email path's suggested filename omits the timestamp token — it is
the whitespace-collapsed name followed by `_test_report.docx`, identical for
any two clock readings — and filename generation is a pure function of
(name, purpose, timestamp). -/
theorem emailFilename_pure_and_untokened (name : String) (t1 t2 : Nat) :
    reportFilename .email name t1 = reportFilename .email name t2
    ∧ reportFilename .email name t1 = jsCollapseWs name ++ "_test_report.docx"
    ∧ WsCollapsed name.data (jsCollapseWs name).data :=
  ⟨rfl, rfl, wsCollapsed_jsCollapseWs name⟩

/-- C4: `getStatusIcon` maps the three enum values to three pairwise distinct
markers, and every other status string to exactly the marker of `untested`;
it never fails on an unrecognized status. -/
theorem getStatusIcon_distinct_and_total (s : String)
    (h1 : s ≠ "working") (h2 : s ≠ "not-working") :
    getStatusIcon "working" = StatusIcon.checkCircleGreen
    ∧ getStatusIcon "not-working" = StatusIcon.xCircleRed
    ∧ getStatusIcon "untested" = StatusIcon.circleGray
    ∧ getStatusIcon "working" ≠ getStatusIcon "not-working"
    ∧ getStatusIcon "working" ≠ getStatusIcon "untested"
    ∧ getStatusIcon "not-working" ≠ getStatusIcon "untested"
    ∧ getStatusIcon s = getStatusIcon "untested" := by
  refine ⟨by decide, by decide, by decide, by decide, by decide, by decide, ?_⟩
  simp [getStatusIcon, h1, h2]

/-- Witness for C4 at the unrecognized status `"borked"`. -/
theorem getStatusIcon_distinct_and_total_witness :
    getStatusIcon "borked" = getStatusIcon "untested" :=
  (getStatusIcon_distinct_and_total "borked" (by decide) (by decide)).2.2.2.2.2.2

/-- C5: `captureScreenshot` never raises to its caller: it returns `none`
when the panel ref is null, `none` when `html2canvas` rejects, the PNG
data-URI when it resolves, and in every case either absence or an image. -/
theorem captureScreenshot_never_throws (env : CaptureEnv) :
    (env.testPanel = none → captureScreenshot env = none)
    ∧ (∀ p e, env.testPanel = some p → env.html2canvas p = Except.error e →
        captureScreenshot env = none)
    ∧ (∀ p c, env.testPanel = some p → env.html2canvas p = Except.ok c →
        captureScreenshot env = some c.toDataURL)
    ∧ (captureScreenshot env = none ∨ ∃ s, captureScreenshot env = some s) := by
  refine ⟨?_, ?_, ?_, ?_⟩
  · intro h; simp [captureScreenshot, h]
  · intro p e hp he; simp [captureScreenshot, hp, he]
  · intro p c hp hc; simp [captureScreenshot, hp, hc]
  · cases h : captureScreenshot env
    · exact Or.inl rfl
    · exact Or.inr ⟨_, rfl⟩

/-- A capture environment with a null panel ref. -/
def captureEnvNullRef : CaptureEnv :=
  { testPanel := none, html2canvas := fun _ => Except.error "render failed" }

/-- Witness for C5: with a null panel ref the capture returns absence. -/
theorem captureScreenshot_never_throws_witness :
    captureScreenshot captureEnvNullRef = none :=
  (captureScreenshot_never_throws captureEnvNullRef).1 rfl

/-- C6: under their guards, the download and email handlers each invoke
screenshot capture exactly once, thread its result into exactly one builder
call, and build from the environment current at the invocation (the trace is
fully determined by that environment, so no artifact of a previous export is
reused). -/
theorem export_handlers_capture_once_build_once (env : ExportEnv) (p : Product)
    (hp : env.selectedProduct = some p) (he : env.emailAddress ≠ "") :
    handleDownloadWordReport env
      = [ ExportEvent.capture (captureScreenshot env.capture)
        , ExportEvent.build (generateWordDocument p env.components env.photos
            (captureScreenshot env.capture) env.now)
        , ExportEvent.packAndDownload (reportFilename .download p.name env.now) ]
    ∧ handleEmailReport env
      = [ ExportEvent.capture (captureScreenshot env.capture)
        , ExportEvent.build (generateWordDocument p env.components env.photos
            (captureScreenshot env.capture) env.now)
        , ExportEvent.packAndDownload (reportFilename .email p.name env.now)
        , ExportEvent.openMailto env.emailAddress ]
    ∧ countCaptureEvents (handleDownloadWordReport env) = 1
    ∧ countBuildEvents (handleDownloadWordReport env) = 1
    ∧ countCaptureEvents (handleEmailReport env) = 1
    ∧ countBuildEvents (handleEmailReport env) = 1 := by
  refine ⟨?_, ?_, ?_, ?_, ?_, ?_⟩ <;>
    simp [handleDownloadWordReport, handleEmailReport, hp, he,
      countCaptureEvents, countBuildEvents, List.countP_cons]

/-- An export environment with a selected product and a nonempty recipient. -/
def exportEnvDemo : ExportEnv :=
  { selectedProduct := some productDemo
    components := [componentDemo]
    photos := [photoDemo]
    capture := captureEnvNullRef
    emailAddress := "qa@example.com"
    now := 42 }

/-- Witness for C6: a concrete export environment where both handlers capture
once and build once. -/
theorem export_handlers_capture_once_build_once_witness :
    countCaptureEvents (handleDownloadWordReport exportEnvDemo) = 1
    ∧ countBuildEvents (handleDownloadWordReport exportEnvDemo) = 1
    ∧ countCaptureEvents (handleEmailReport exportEnvDemo) = 1
    ∧ countBuildEvents (handleEmailReport exportEnvDemo) = 1 := by
  have h := export_handlers_capture_once_build_once exportEnvDemo productDemo rfl
    (by decide)
  exact ⟨h.2.2.1, h.2.2.2.1, h.2.2.2.2.1, h.2.2.2.2.2⟩

/-- C7: deleting a product detaches every component it owns (the reference is
cleared to `""` while the record stays in the store and the store's size is
unchanged), hard-deletes every photo it owns, removes the product record, and
clears the selection exactly when the deleted product was selected. -/
theorem deleteProduct_cascade (st : AppState) (id : String) :
    (∀ c ∈ st.componentTests, c.productId = id →
        { c with productId := "" } ∈ (handleDeleteProduct st id).componentTests)
    ∧ (handleDeleteProduct st id).componentTests.length = st.componentTests.length
    ∧ (∀ ph ∈ st.productPhotos, ph.productId = id →
        ph ∉ (handleDeleteProduct st id).productPhotos)
    ∧ (∀ p ∈ (handleDeleteProduct st id).products, p.id ≠ id)
    ∧ (st.selectedProductId = some id →
        (handleDeleteProduct st id).selectedProductId = none)
    ∧ (st.selectedProductId ≠ some id →
        (handleDeleteProduct st id).selectedProductId = st.selectedProductId) := by
  refine ⟨?_, ?_, ?_, ?_, ?_, ?_⟩
  · intro c hc hcp
    exact List.mem_map.mpr ⟨c, hc, by simp [hcp]⟩
  · simp [handleDeleteProduct]
  · intro ph hph hpid hmem
    have := (List.mem_filter.mp hmem).2
    simp [hpid] at this
  · intro p hp
    have := (List.mem_filter.mp hp).2
    simpa using this
  · intro h; simp [handleDeleteProduct, h]
  · intro h; simp [handleDeleteProduct, h]

/-- Application state holding `productDemo` with its component and photo,
with the product selected. -/
def appStateDemo : AppState :=
  { products := [productDemo]
    componentTests := [componentDemo]
    productPhotos := [photoDemo]
    selectedProductId := some "p1" }

/-- Witness for C7: deleting `"p1"` detaches its component, removes its photo
and clears the selection. -/
theorem deleteProduct_cascade_witness :
    { componentDemo with productId := "" }
        ∈ (handleDeleteProduct appStateDemo "p1").componentTests
    ∧ photoDemo ∉ (handleDeleteProduct appStateDemo "p1").productPhotos
    ∧ (handleDeleteProduct appStateDemo "p1").selectedProductId = none := by
  have h := deleteProduct_cascade appStateDemo "p1"
  exact ⟨h.1 componentDemo (by decide) rfl,
    h.2.2.1 photoDemo (by decide) rfl,
    h.2.2.2.2.1 rfl⟩

/-- C8: two builder runs on identical (product, components, photos,
screenshot) inputs agree on the title block, component entries, photo entries
and screenshot section; only the generated-at stamp depends on the clock. -/
theorem build_deterministic_up_to_timestamp (p : Product)
    (components : List ComponentTest) (photos : List ProductPhoto)
    (screenshot : Option String) (t1 t2 : Nat) :
    (generateWordDocument p components photos screenshot t1).title
      = (generateWordDocument p components photos screenshot t2).title
    ∧ (generateWordDocument p components photos screenshot t1).componentEntries
      = (generateWordDocument p components photos screenshot t2).componentEntries
    ∧ (generateWordDocument p components photos screenshot t1).photoEntries
      = (generateWordDocument p components photos screenshot t2).photoEntries
    ∧ (generateWordDocument p components photos screenshot t1).screenshotSection
      = (generateWordDocument p components photos screenshot t2).screenshotSection :=
  ⟨rfl, rfl, rfl, rfl⟩

/-- C9: for any product id other than the one the `components` query was
filtered by (`selectedProductId || ''`), `getStatusStats` returns all
zeros — the fetched list holds only the selected product's components. -/
theorem getStatusStats_zero_for_unselected (store : List ComponentTest)
    (sel : Option String) (pid : String) (h : pid ≠ sel.getD "") :
    getStatusStats (componentsQuery store sel) pid
      = { working := 0, notWorking := 0, untested := 0, total := 0 } := by
  have hnil : (componentsQuery store sel).filter
      (fun c => decide (c.productId = pid)) = [] := by
    rw [List.filter_eq_nil_iff]
    intro c hc
    have hmem := (List.mem_filter.mp hc).2
    simp only [decide_eq_true_eq] at hmem ⊢
    rw [hmem]
    exact fun hEq => h hEq.symm
  simp [getStatusStats, hnil]

/-- Witness for C9: the component of product `"p1"` is fetched away when
`"p2"` is selected, so `"p1"`'s stats are all zero despite its `working`
component. -/
theorem getStatusStats_zero_for_unselected_witness :
    getStatusStats (componentsQuery [componentDemo] (some "p2")) "p1"
      = { working := 0, notWorking := 0, untested := 0, total := 0 } :=
  getStatusStats_zero_for_unselected [componentDemo] (some "p2") "p1" (by decide)

/-- C10: searching by inventory id does nothing on an empty search string;
on a nonempty string with at least one match it selects the first query
result (closing the modal and clearing the field); with no match it leaves
the selection, the open modal and the field unchanged and only raises an
alert. -/
theorem searchByInventoryId_cases (store : List Product) (st : SearchState) :
    (st.inventorySearchId = "" → handleSearchByInventoryId store st = st)
    ∧ (∀ r rest, st.inventorySearchId ≠ "" →
        queryByInventoryId store st.inventorySearchId = r :: rest →
        handleSearchByInventoryId store st
          = { st with selectedProductId := some r.id
                      showInventorySearch := false
                      inventorySearchId := "" })
    ∧ (st.inventorySearchId ≠ "" →
        queryByInventoryId store st.inventorySearchId = [] →
        (handleSearchByInventoryId store st).selectedProductId
            = st.selectedProductId
        ∧ (handleSearchByInventoryId store st).showInventorySearch
            = st.showInventorySearch
        ∧ (handleSearchByInventoryId store st).inventorySearchId
            = st.inventorySearchId
        ∧ (handleSearchByInventoryId store st).alerts
            = st.alerts ++ ["Product not found with this Inventory ID"]) := by
  refine ⟨?_, ?_, ?_⟩
  · intro h; simp [handleSearchByInventoryId, h]
  · intro r rest hne hq
    simp [handleSearchByInventoryId, hne, hq]
  · intro hne hq
    refine ⟨?_, ?_, ?_, ?_⟩ <;> simp [handleSearchByInventoryId, hne, hq]

/-- A search state with an open modal and a query that matches nothing in
a store holding only `productDemo`. -/
def searchStateDemo : SearchState :=
  { selectedProductId := some "p1"
    showInventorySearch := true
    inventorySearchId := "INV-9"
    alerts := [] }

/-- Witness for C10: the no-match case leaves selection and modal unchanged. -/
theorem searchByInventoryId_cases_witness :
    (handleSearchByInventoryId [productDemo] searchStateDemo).selectedProductId
        = searchStateDemo.selectedProductId
    ∧ (handleSearchByInventoryId [productDemo] searchStateDemo).showInventorySearch
        = searchStateDemo.showInventorySearch := by
  have h := (searchByInventoryId_cases [productDemo] searchStateDemo).2.2
    (by decide) (by decide)
  exact ⟨h.1, h.2.1⟩

end ProductTesting
